import Mathlib

/-!
Verification of the ESXi_Control repository (src/ESXi_Control/ESXi_Control.py)
against its natural-language specification.

The Python module drives an ESXi host over an SSH session: it formats shell
command strings, submits them through the session, and parses the textual
output (exit status, stdout lines, stderr lines) into domain values or
structured errors.  The shallow embedding below models the remote side as a
function from command strings to execution results, and each Python method as
a pure Lean function returning `Except Err α` (the raised exception or the
return value) paired with the list of remote commands issued, in order.
-/

deriving instance DecidableEq for Except

namespace ESXiControl

/-! ## Python-like string primitives

These mirror the exact Python string operations the module uses:
substring containment (`pat in s`), `str.split(sep)` for a single-character
separator (the module only splits on `" "` and `":"`), `str.strip`,
`str.lower`, `str.capitalize` and `int(...)` parsing.  They are implemented
by structural recursion on character lists so that concrete instances
evaluate inside the kernel. -/

/-- Boolean prefix test on character lists (`l` starts with `pat`). -/
def listIsPfx : List Char → List Char → Bool
  | [], _ => true
  | _ :: _, [] => false
  | a :: as, b :: bs => a == b && listIsPfx as bs

/-- Boolean substring test on character lists: some suffix of the second
list starts with `pat`. -/
def hasSub (pat : List Char) : List Char → Bool
  | [] => listIsPfx pat []
  | c :: cs => listIsPfx pat (c :: cs) || hasSub pat cs

/-- Python's `pat in s` substring containment on strings. -/
def pyIn (pat s : String) : Bool :=
  hasSub pat.toList s.toList

/-- Python's `s.split(sep)` for a one-character separator: every occurrence
of `sep` cuts, empty pieces are kept. -/
def splitOnChar (sep : Char) : List Char → List (List Char)
  | [] => [[]]
  | c :: cs =>
    if c == sep then [] :: splitOnChar sep cs
    else
      match splitOnChar sep cs with
      | [] => [[c]]
      | g :: gs => (c :: g) :: gs

/-- Python's `s.split(sep)` on strings, one-character separator. -/
def pySplit (s : String) (sep : Char) : List String :=
  List.map String.mk (splitOnChar sep s.toList)

/-- List indexing with the empty string as default; the module only indexes
split results at positions its guards guarantee to exist, so the default is
never the returned value in the verified paths. -/
def idxD : List String → Nat → String
  | [], _ => ""
  | x :: _, 0 => x
  | _ :: xs, n + 1 => idxD xs n

/-- Python's `s.strip()`: drop leading and trailing whitespace. -/
def pyStrip (s : String) : String :=
  String.mk (List.reverse (List.dropWhile Char.isWhitespace
    (List.reverse (List.dropWhile Char.isWhitespace s.toList))))

/-- Python's `s.lower()`. -/
def pyLower (s : String) : String :=
  String.mk (List.map Char.toLower s.toList)

/-- Python's `str.capitalize()`: first character upper-cased, the rest
lower-cased. -/
def pyCapitalize (s : String) : String :=
  match List.map Char.toLower s.toList with
  | [] => ""
  | c :: cs => String.mk (Char.toUpper c :: cs)

/-- Value of a nonempty run of decimal digits; `none` on a non-digit. -/
def digitsVal (acc : Nat) : List Char → Option Nat
  | [] => some acc
  | c :: cs => if c.isDigit then digitsVal (10 * acc + (c.toNat - 48)) cs else none

/-- Python's `int(s)`: surrounding whitespace stripped, optional sign,
nonempty digit run; `none` models a `ValueError`. -/
def pyInt (s : String) : Option Int :=
  match (pyStrip s).toList with
  | [] => none
  | '-' :: rest =>
    if rest.isEmpty then none else Option.map (fun n => -(n : Int)) (digitsVal 0 rest)
  | '+' :: rest =>
    if rest.isEmpty then none else Option.map (fun n => (n : Int)) (digitsVal 0 rest)
  | l => Option.map (fun n => (n : Int)) (digitsVal 0 l)

/-- Drops everything up to and including the first occurrence of `pat`;
`none` when `pat` does not occur.  This is the suffix on which the regex
`(?:vim\.fault)[.]([a-zA-Z]*)` starts its capture group when `pat` is
the literal `vim.fault.`. -/
def dropAfterFirst (pat : List Char) : List Char → Option (List Char)
  | [] => if listIsPfx pat [] then some (List.drop pat.length []) else none
  | c :: cs =>
    if listIsPfx pat (c :: cs) then some (List.drop pat.length (c :: cs))
    else dropAfterFirst pat cs

/-- Models `re.search("(?:vim\.fault)[.]([a-zA-Z]*)", s)` followed by
`.group(1)`: the longest ASCII-alphabetic run following the first
occurrence of the literal `vim.fault.`; `none` models `re.search`
returning `None` (whereupon the Python code's `.group(1)` would raise
`AttributeError`). -/
def extractVimFault (s : String) : Option String :=
  match dropAfterFirst (String.toList "vim.fault.") s.toList with
  | none => none
  | some rest => some (String.mk (List.takeWhile Char.isAlpha rest))

/-! ## Execution model

`paramiko`'s `exec_command` / `recv_exit_status` / `readlines` triple is
modelled as a function from the command string to an `ExecResult`.  The
`connected` flag models `ESXiHost.connected()` (transport exists and is
alive).  Each operation returns the raised-or-returned value together with
the list of remote commands it issued. -/

/-- Result of one remote command: exit status, stdout lines, stderr lines. -/
structure ExecResult where
  exitStatus : Int
  stdout : List String
  stderr : List String
deriving Repr, DecidableEq

/-- A host: the `connected()` liveness answer and the remote side's response
to each command string. -/
structure Host where
  connected : Bool
  exec : String → ExecResult

/-- Exceptions the module can raise: `ESXiError` values (code, message,
optional reason) and the builtin Python exceptions its code paths can hit. -/
inductive Err where
  | esxi (code : Int) (message : String) (reason : Option String)
  | indexError
  | typeError
  | valueError
  | attributeError (attr : String)
deriving Repr, DecidableEq

/-- `ESXiError(ESXIErrors.SSHNotConnected)`. -/
def sshNotConnectedErr : Err :=
  .esxi (-1000) "SSH not connected to host." none

/-- `ESXiError(ESXIErrors.Host_MaintenanceModeEnter_Failed)`. -/
def maintEnterFailedErr : Err :=
  .esxi (-1010) "Unable to enable maintenance mode on host." none

/-- `ESXiError(ESXIErrors.Host_MaintenanceModeExit_Failed)`. -/
def maintExitFailedErr : Err :=
  .esxi (-1011) "Unable to disable maintenance mode on host." none

/-- `ESXiError(ESXIErrors.Host_MaintenanceModeQuery_Failed)`. -/
def maintQueryFailedErr : Err :=
  .esxi (-1012) "Unable to get maintenance mode state." none

/-- `ESXiError(ESXIErrors.Host_Shutdown_InvalidCommand)`. -/
def shutdownInvalidCommandErr : Err :=
  .esxi (-1020)
    "Command must be of type string and must be either \x27poweroff\x27 or \x27reboot\x27."
    none

/-- `ESXiError(ESXIErrors.Host_Shutdown_Failed)`. -/
def shutdownFailedErr : Err :=
  .esxi (-1021) "Unable to shutdown host." none

/-- `ESXiError(ESXIErrors.Host_VMQuery_Failed)`. -/
def vmQueryFailedErr : Err :=
  .esxi (-1030) "Unable to get list of vms from host." none

/-- `ESXiError(ESXIErrors.VM_PowerStateQuery_Failed)`. -/
def powerStateQueryFailedErr : Err :=
  .esxi (-1040) "Unable to query the power state of the specified vm." none

/-! ## Host facade: command strings -/

/-- Command issued by `get_maintenance_mode`. -/
def maintenanceModeGetCmd : String := "esxcli system maintenanceMode get"

/-- Command issued by `enter_maintenance_mode`. -/
def maintenanceModeEnterCmd : String := "vim-cmd hostsvc/maintenance_mode_enter"

/-- Command issued by `exit_maintenance_mode`. -/
def maintenanceModeExitCmd : String := "vim-cmd hostsvc/maintenance_mode_exit"

/-- Command issued by `ESXiHost.shutdown`:
`"esxcli system shutdown {0}".format(command)`. -/
def shutdownCmd (command : String) : String :=
  "esxcli system shutdown " ++ command

/-- Command issued by `get_all_vms` (the `vim-cmd` listing piped through
`awk` to emit six colon-joined fields per row). -/
def getAllVmsCmd : String :=
  "vim-cmd vmsvc/getallvms | awk \x27$3 ~ /^\\[/ \x7bprint $1\":\"$2\":\"$3\":\"$4\":\"$5\":\"$6\x7d\x27"

/-! ## Host facade: operations -/

/-- The scan loop of `get_maintenance_mode`: first line containing the
literal `Enabled` or `Disabled` yields `line.split(" ")[0].strip()`;
falling off the loop returns Python `None` (here `none`). -/
def scanMaintLines : List String → Option String
  | [] => none
  | line :: rest =>
    if pyIn "Enabled" line || pyIn "Disabled" line then
      some (pyStrip (idxD (pySplit line ' ') 0))
    else scanMaintLines rest

/-- `ESXiHost.get_maintenance_mode` (ESXi_Control.py lines 213-243). -/
def get_maintenance_mode (h : Host) : Except Err (Option String) × List String :=
  if h.connected then
    if (h.exec maintenanceModeGetCmd).exitStatus == 0 then
      (.ok (scanMaintLines (h.exec maintenanceModeGetCmd).stdout), [maintenanceModeGetCmd])
    else
      (.error maintQueryFailedErr, [maintenanceModeGetCmd])
  else
    (.error sshNotConnectedErr, [])

/-- `ESXiHost.enter_maintenance_mode` (lines 245-272). -/
def enter_maintenance_mode (h : Host) : Except Err Unit × List String :=
  if h.connected then
    match get_maintenance_mode h with
    | (.error e, t) => (.error e, t)
    | (.ok st, t) =>
      if st == some "Enabled" then (.ok (), t)
      else
        if (h.exec maintenanceModeEnterCmd).exitStatus == 0 then
          (.ok (), t ++ [maintenanceModeEnterCmd])
        else
          (.error maintEnterFailedErr, t ++ [maintenanceModeEnterCmd])
  else
    (.error sshNotConnectedErr, [])

/-- `ESXiHost.exit_maintenance_mode` (lines 274-300). -/
def exit_maintenance_mode (h : Host) : Except Err Unit × List String :=
  if h.connected then
    match get_maintenance_mode h with
    | (.error e, t) => (.error e, t)
    | (.ok st, t) =>
      if st == some "Disabled" then (.ok (), t)
      else
        if (h.exec maintenanceModeExitCmd).exitStatus == 0 then
          (.ok (), t ++ [maintenanceModeExitCmd])
        else
          (.error maintExitFailedErr, t ++ [maintenanceModeExitCmd])
  else
    (.error sshNotConnectedErr, [])

/-- `ESXiHost.shutdown` (lines 302-340).  The argument is always a string in
this embedding, so the `isinstance(command, str)` half of the guard holds;
the case-insensitive membership test remains. -/
def shutdown (h : Host) (command : String) : Except Err Unit × List String :=
  if h.connected then
    if !(pyLower command == "poweroff" || pyLower command == "reboot") then
      (.error shutdownInvalidCommandErr, [])
    else
      if (h.exec (shutdownCmd command)).exitStatus == 0 then
        (.ok (), [shutdownCmd command])
      else
        (.error shutdownFailedErr, [shutdownCmd command])
  else
    (.error sshNotConnectedErr, [])

/-- A VM handle: the six colon-delimited fields stored by `ESXiVm.__init__`
(lines 498-508).  The `host`/`ssh_session` back references are supplied
explicitly to the operations instead of being stored. -/
structure Vm where
  id : Int
  name : String
  datastore : String
  file : String
  guest_os : String
  version : String
deriving Repr, DecidableEq

/-- `ESXiVm.__init__` field extraction from one split row: `int(vm_data[0])`
(a non-numeric field raises `ValueError`), then positional fields 1-5 (a row
with fewer than six fields raises `IndexError`). -/
def mkVm (fields : List String) : Except Err Vm :=
  match pyInt (idxD fields 0) with
  | none => .error .valueError
  | some i =>
    if 6 ≤ fields.length then
      .ok ⟨i, idxD fields 1, idxD fields 2, idxD fields 3, idxD fields 4, idxD fields 5⟩
    else
      .error .indexError

/-- The row loop of `get_all_vms`: split each row on `":"`, skip the row
whose first field is case-insensitively `vmid`, construct a `Vm` from each
remaining row. -/
def parseVmRows : List String → Except Err (List Vm)
  | [] => .ok []
  | row :: rest =>
    if pyLower (idxD (pySplit row ':') 0) == "vmid" then
      parseVmRows rest
    else do
      let vm ← mkVm (pySplit row ':')
      let vms ← parseVmRows rest
      .ok (vm :: vms)

/-- `ESXiHost.get_all_vms` (lines 342-388).  Python returns `None` (here
`none`) when the command produced no stdout rows, and the constructed list
otherwise. -/
def get_all_vms (h : Host) : Except Err (Option (List Vm)) × List String :=
  if h.connected then
    if (h.exec getAllVmsCmd).exitStatus == 0 then
      if 0 < (h.exec getAllVmsCmd).stdout.length then
        match parseVmRows (h.exec getAllVmsCmd).stdout with
        | .ok vms => (.ok (some vms), [getAllVmsCmd])
        | .error e => (.error e, [getAllVmsCmd])
      else
        (.ok none, [getAllVmsCmd])
    else
      (.error vmQueryFailedErr, [getAllVmsCmd])
  else
    (.error sshNotConnectedErr, [])

/-- `ESXiHost.find_vm_by_name` (lines 433-462).  When `get_all_vms` returned
Python `None`, the `for vm in vms` loop raises `TypeError` (`NoneType` is
not iterable); otherwise a linear scan with case-insensitive name equality,
`none` modelling the not-found `return None`. -/
def find_vm_by_name (h : Host) (vm_name : String) :
    Except Err (Option Vm) × List String :=
  if h.connected then
    match get_all_vms h with
    | (.error e, t) => (.error e, t)
    | (.ok none, t) => (.error .typeError, t)
    | (.ok (some vms), t) =>
      (.ok (List.find? (fun vm => pyLower vm.name == pyLower vm_name) vms), t)
  else
    (.error sshNotConnectedErr, [])

/-- `ESXiHost.find_vm_by_id` (lines 464-493).  Same `TypeError` on a `None`
list; exact match on the numeric id. -/
def find_vm_by_id (h : Host) (vm_id : Int) :
    Except Err (Option Vm) × List String :=
  if h.connected then
    match get_all_vms h with
    | (.error e, t) => (.error e, t)
    | (.ok none, t) => (.error .typeError, t)
    | (.ok (some vms), t) =>
      (.ok (List.find? (fun vm => vm.id == vm_id) vms), t)
  else
    (.error sshNotConnectedErr, [])

/-! ## VM power operations: command strings -/

/-- `"vim-cmd vmsvc/power.getstate {0}".format(self.id)`. -/
def power_getstate_cmd (id : Int) : String :=
  "vim-cmd vmsvc/power.getstate " ++ toString id

/-- `"vim-cmd vmsvc/power.hibernate {0}".format(self.id)`. -/
def power_hibernate_cmd (id : Int) : String :=
  "vim-cmd vmsvc/power.hibernate " ++ toString id

/-- `"vim-cmd vmsvc/power.on {0}".format(self.id)`. -/
def power_on_cmd (id : Int) : String :=
  "vim-cmd vmsvc/power.on " ++ toString id

/-- `"vim-cmd vmsvc/power.off {0}".format(self.id)`. -/
def power_off_cmd (id : Int) : String :=
  "vim-cmd vmsvc/power.off " ++ toString id

/-- `"vim-cmd vmsvc/power.reboot {0}".format(self.id)`. -/
def power_reboot_cmd (id : Int) : String :=
  "vim-cmd vmsvc/power.reboot " ++ toString id

/-- `"vim-cmd vmsvc/power.reset {0}".format(self.id)`. -/
def power_reset_cmd (id : Int) : String :=
  "vim-cmd vmsvc/power.reset " ++ toString id

/-- `"vim-cmd vmsvc/power.shutdown {0}".format(self.id)`. -/
def power_shutdown_cmd (id : Int) : String :=
  "vim-cmd vmsvc/power.shutdown " ++ toString id

/-- `"vim-cmd vmsvc/power.suspend {0}".format(self.id)`. -/
def power_suspend_cmd (id : Int) : String :=
  "vim-cmd vmsvc/power.suspend " ++ toString id

/-! ## VM power operations: bodies

The function bodies of the `ESXiVm` power methods (everything below the
`@ssh_check` line of each method).  The `ssh_check` decorator itself is
modelled separately below, because its actual behaviour differs from its
docstring. -/

/-- The scan loop of `power_getstate` (lines 561-576): first line containing
`"Powered "` yields `line.split(" ")[1].strip()`; a line containing
`"Suspended"` yields `"suspended"`; falling off the loop returns Python
`None` (here `none`). -/
def scanPowerLines : List String → Option String
  | [] => none
  | line :: rest =>
    if pyIn "Powered " line then
      some (pyStrip (idxD (pySplit line ' ') 1))
    else if pyIn "Suspended" line then
      some "suspended"
    else scanPowerLines rest

/-- Body of `ESXiVm.power_getstate` (lines 542-576): run the state query,
raise `VM_PowerStateQuery_Failed` on a nonzero exit, otherwise scan the
stdout lines. -/
def power_getstate_body (h : Host) (id : Int) :
    Except Err (Option String) × List String :=
  if (h.exec (power_getstate_cmd id)).exitStatus == 0 then
    (.ok (scanPowerLines (h.exec (power_getstate_cmd id)).stdout), [power_getstate_cmd id])
  else
    (.error powerStateQueryFailedErr, [power_getstate_cmd id])

/-- The reason string
`"({0}) The attempted operation cannot be performed in the current state. ({1})"`
formatted with the extracted fault and the capitalized re-queried state. -/
def faultReason (fault st : String) : String :=
  "(" ++ fault ++ ") The attempted operation cannot be performed in the current state. ("
    ++ st ++ ")"

/-- The shared nonzero-exit diagnosis of every power method: read stderr and
index its first line (an empty stderr raises `IndexError`); if it contains
`"vim.fault"`, extract the fault identifier by regex (a failed search makes
`.group(1)` raise `AttributeError`), re-query the power state (whose own
failure propagates, and whose `None` result makes `.capitalize()` raise
`AttributeError`), and raise `ESXiError` with code `faultCode`; otherwise
raise `ESXiError` with code `plainCode` and no reason.  Every method uses
its table code for both branches except `power_hibernate`, whose fault
branch passes the literal code `1000`. -/
def power_fail (h : Host) (id : Int) (r : ExecResult) (t : List String)
    (faultCode plainCode : Int) (msg : String) : Except Err Unit × List String :=
  match r.stderr with
  | [] => (.error .indexError, t)
  | line0 :: _ =>
    if pyIn "vim.fault" line0 then
      match extractVimFault line0 with
      | none => (.error (.attributeError "group"), t)
      | some fault =>
        match power_getstate_body h id with
        | (.error e, t2) => (.error e, t ++ t2)
        | (.ok none, t2) => (.error (.attributeError "capitalize"), t ++ t2)
        | (.ok (some st), t2) =>
          (.error (.esxi faultCode msg (some (faultReason fault (pyCapitalize st)))), t ++ t2)
    else
      (.error (.esxi plainCode msg none), t)

/-- Shape of the five power methods that short-circuit on the current state
(`power_hibernate`, `power_on`, `power_off`, `power_shutdown`,
`power_suspend`): query the state (propagating its failure), return
immediately when it equals `target`, otherwise issue `cmd` and on a nonzero
exit run the shared diagnosis. -/
def power_checked (h : Host) (id : Int) (target : String) (cmd : String)
    (faultCode plainCode : Int) (msg : String) : Except Err Unit × List String :=
  match power_getstate_body h id with
  | (.error e, t) => (.error e, t)
  | (.ok st, t) =>
    if st == some target then (.ok (), t)
    else
      if (h.exec cmd).exitStatus == 0 then (.ok (), t ++ [cmd])
      else power_fail h id (h.exec cmd) (t ++ [cmd]) faultCode plainCode msg

/-- Shape of `power_reboot` and `power_reset`, which have no current-state
short-circuit: issue `cmd` unconditionally and on a nonzero exit run the
shared diagnosis. -/
def power_unchecked (h : Host) (id : Int) (cmd : String)
    (code : Int) (msg : String) : Except Err Unit × List String :=
  if (h.exec cmd).exitStatus == 0 then (.ok (), [cmd])
  else power_fail h id (h.exec cmd) [cmd] code code msg

/-- Body of `ESXiVm.power_hibernate` (lines 578-619).  Note the fault branch
raises `ESXiError(1000, "Unable to hibernate the specified vm.", reason)` —
the literal code `1000`, not `ESXIErrors.VM_Hibernate_Failed` (-1050), which
only the no-fault branch uses. -/
def power_hibernate_body (h : Host) (id : Int) : Except Err Unit × List String :=
  power_checked h id "suspended" (power_hibernate_cmd id) 1000 (-1050)
    "Unable to hibernate the specified vm."

/-- Body of `ESXiVm.power_on` (lines 621-664). -/
def power_on_body (h : Host) (id : Int) : Except Err Unit × List String :=
  power_checked h id "on" (power_on_cmd id) (-1060) (-1060)
    "Unable to power on the specified vm."

/-- Body of `ESXiVm.power_off` (lines 666-709). -/
def power_off_body (h : Host) (id : Int) : Except Err Unit × List String :=
  power_checked h id "off" (power_off_cmd id) (-1070) (-1070)
    "Unable to power off the specified vm."

/-- Body of `ESXiVm.power_reboot` (lines 711-749): no state short-circuit. -/
def power_reboot_body (h : Host) (id : Int) : Except Err Unit × List String :=
  power_unchecked h id (power_reboot_cmd id) (-1080)
    "Unable to reboot the specified vm."

/-- Body of `ESXiVm.power_reset` (lines 751-789): no state short-circuit. -/
def power_reset_body (h : Host) (id : Int) : Except Err Unit × List String :=
  power_unchecked h id (power_reset_cmd id) (-1090)
    "Unable to reset the specified vm."

/-- Body of `ESXiVm.power_shutdown` (lines 791-834). -/
def power_shutdown_body (h : Host) (id : Int) : Except Err Unit × List String :=
  power_checked h id "off" (power_shutdown_cmd id) (-1100) (-1100)
    "Unable to shutdown the specified vm."

/-- Body of `ESXiVm.power_suspend` (lines 836-876). -/
def power_suspend_body (h : Host) (id : Int) : Except Err Unit × List String :=
  power_checked h id "suspended" (power_suspend_cmd id) (-1110) (-1110)
    "Unable to suspend the specified vm."

/-! ## The `ssh_check` decorator (lines 510-539)

Its wrapper is

    def ssh_check_wrapper(*args_list, **kwargs_list):
        if not args[0].host.connected():
            raise ESXiError(ESXIErrors.SSHNotConnected)
        return wrapped_function(*args_list, **kwargs_list)

where `args` is NOT the wrapper's own parameter tuple (that is `args_list`)
but the enclosing decorator's, so `args[0]` is the wrapped function object.
A plain function object has no `host` attribute, so the attribute lookup
`args[0].host` raises `AttributeError` on every call, before the
connectivity check can run and before the wrapped body is invoked.  The
shallow embedding therefore renders every decorated method as that
`AttributeError`, issuing no command. -/

/-- The applied `ssh_check` wrapper: attribute lookup `.host` on the closed
over function object fails, so every call raises `AttributeError` without
invoking `body`. -/
def ssh_check_wrapped {α : Type} (_body : Host → Int → Except Err α × List String)
    (_h : Host) (_id : Int) : Except Err α × List String :=
  (.error (.attributeError "host"), [])

/-- `ESXiVm.power_getstate` as callers see it: `ssh_check` applied to its
body. -/
def power_getstate (h : Host) (id : Int) : Except Err (Option String) × List String :=
  ssh_check_wrapped power_getstate_body h id

/-- `ESXiVm.power_hibernate` as callers see it. -/
def power_hibernate (h : Host) (id : Int) : Except Err Unit × List String :=
  ssh_check_wrapped power_hibernate_body h id

/-- `ESXiVm.power_on` as callers see it. -/
def power_on (h : Host) (id : Int) : Except Err Unit × List String :=
  ssh_check_wrapped power_on_body h id

/-- `ESXiVm.power_off` as callers see it. -/
def power_off (h : Host) (id : Int) : Except Err Unit × List String :=
  ssh_check_wrapped power_off_body h id

/-- `ESXiVm.power_reboot` as callers see it. -/
def power_reboot (h : Host) (id : Int) : Except Err Unit × List String :=
  ssh_check_wrapped power_reboot_body h id

/-- `ESXiVm.power_reset` as callers see it. -/
def power_reset (h : Host) (id : Int) : Except Err Unit × List String :=
  ssh_check_wrapped power_reset_body h id

/-- `ESXiVm.power_shutdown` as callers see it. -/
def power_shutdown (h : Host) (id : Int) : Except Err Unit × List String :=
  ssh_check_wrapped power_shutdown_body h id

/-- `ESXiVm.power_suspend` as callers see it. -/
def power_suspend (h : Host) (id : Int) : Except Err Unit × List String :=
  ssh_check_wrapped power_suspend_body h id

/-- Body of `ESXiVm.power_suspendresume` (lines 878-880): `pass`. -/
def power_suspendresume_body (_h : Host) (_id : Int) : Except Err Unit × List String :=
  (.ok (), [])

/-- `ESXiVm.power_suspendresume` as callers see it. -/
def power_suspendresume (h : Host) (id : Int) : Except Err Unit × List String :=
  ssh_check_wrapped power_suspendresume_body h id

/-- The filter loop of `get_running_vms` (lines 414-421): for each handle
call `vm.power_getstate()` — the decorated method — and keep the handle
when the result is `'on'`. -/
def runningLoop (h : Host) : List Vm → Except Err (List Vm) × List String
  | [] => (.ok [], [])
  | vm :: rest =>
    match power_getstate h vm.id with
    | (.error e, t) => (.error e, t)
    | (.ok st, t) =>
      match runningLoop h rest with
      | (.error e, t2) => (.error e, t ++ t2)
      | (.ok vms, t2) =>
        (.ok (if st == some "on" then vm :: vms else vms), t ++ t2)

/-- `ESXiHost.get_running_vms` (lines 390-431).  A `None` list from
`get_all_vms` is checked (`if all_vms is not None`) and returned as-is. -/
def get_running_vms (h : Host) : Except Err (Option (List Vm)) × List String :=
  if h.connected then
    match get_all_vms h with
    | (.error e, t) => (.error e, t)
    | (.ok none, t) => (.ok none, t)
    | (.ok (some vms), t) =>
      match runningLoop h vms with
      | (.error e, t2) => (.error e, t ++ t2)
      | (.ok running, t2) => (.ok (some running), t ++ t2)
  else
    (.error sshNotConnectedErr, [])

/-! ## Helper lemmas -/

/-- A prefix of `a` is a prefix of `a ++ b`. -/
theorem listIsPfx_append (p a b : List Char) (h : listIsPfx p a = true) :
    listIsPfx p (a ++ b) = true := by
  induction p generalizing a with
  | nil => simp [listIsPfx]
  | cons c cs ih =>
    cases a with
    | nil => simp [listIsPfx] at h
    | cons d ds =>
      simp only [List.cons_append, listIsPfx, Bool.and_eq_true] at h ⊢
      exact ⟨h.1, ih ds h.2⟩

/-- A list that starts with `p` contains `p` as a substring. -/
theorem hasSub_of_isPfx (p s : List Char) (h : listIsPfx p s = true) :
    hasSub p s = true := by
  cases s with
  | nil => simpa [hasSub] using h
  | cons c cs => simp [hasSub, h]

/-- When `pat` is a prefix, `dropAfterFirst` cuts at position zero. -/
theorem dropAfterFirst_of_pfx (pat s : List Char) (h : listIsPfx pat s = true) :
    dropAfterFirst pat s = some (List.drop pat.length s) := by
  cases s with
  | nil => simp [dropAfterFirst, h]
  | cons c cs => simp [dropAfterFirst, h]

/-- `takeWhile` over an append stops inside the left part when the left part
contains an element failing the predicate. -/
theorem takeWhile_append_stop (p : Char → Bool) (a b : List Char)
    (h : List.dropWhile p a ≠ []) :
    List.takeWhile p (a ++ b) = List.takeWhile p a := by
  induction a with
  | nil => simp [List.dropWhile] at h
  | cons c cs ih =>
    by_cases hc : p c
    · rw [List.dropWhile_cons, if_pos hc] at h
      simp only [List.cons_append, List.takeWhile_cons, hc]
      rw [ih h]
    · simp [List.takeWhile_cons, hc]

/-- `toList` distributes over string append. -/
theorem str_toList_append (a b : String) : (a ++ b).toList = a.toList ++ b.toList := by
  simp [String.toList, String.data_append]

/-- Any stderr line of the shape `vim.fault.InvalidState: <anything>` passes
the Python `"vim.fault" in line` containment test. -/
theorem pyIn_vimFault (s : String) :
    pyIn "vim.fault" ("vim.fault.InvalidState: " ++ s) = true := by
  unfold pyIn
  rw [str_toList_append]
  exact hasSub_of_isPfx _ _ (listIsPfx_append _ _ _ (by decide))

/-- The regex extraction on any line of the shape
`vim.fault.InvalidState: <anything>` yields exactly `InvalidState`. -/
theorem extractVimFault_invalidState (s : String) :
    extractVimFault ("vim.fault.InvalidState: " ++ s) = some "InvalidState" := by
  unfold extractVimFault
  rw [str_toList_append,
    dropAfterFirst_of_pfx _ _ (listIsPfx_append _ _ _ (by decide))]
  rw [List.drop_append_of_le_length (by decide)]
  rw [show List.drop (String.toList "vim.fault.").length "vim.fault.InvalidState: ".toList
      = "InvalidState: ".toList from by decide]
  dsimp only
  rw [takeWhile_append_stop _ _ _ (by decide)]
  decide

/-- The state-query body always issues exactly the state-query command. -/
theorem power_getstate_body_trace (h : Host) (id : Int) :
    (power_getstate_body h id).2 = [power_getstate_cmd id] := by
  unfold power_getstate_body
  split <;> rfl

/-- Reconstruct the full result pair of the state-query body from its
value component. -/
theorem power_getstate_body_pair (h : Host) (id : Int)
    (st : Except Err (Option String)) (hst : (power_getstate_body h id).1 = st) :
    power_getstate_body h id = (st, [power_getstate_cmd id]) := by
  have ht := power_getstate_body_trace h id
  exact Prod.ext hst ht

/-- On a zero exit status the state-query body scans the stdout lines. -/
theorem power_getstate_body_ok (h : Host) (id : Int)
    (hexit : (h.exec (power_getstate_cmd id)).exitStatus = 0) :
    power_getstate_body h id
      = (.ok (scanPowerLines (h.exec (power_getstate_cmd id)).stdout), [power_getstate_cmd id]) := by
  unfold power_getstate_body
  simp [hexit]

/-- The state scan yields Python `None` when no line matches. -/
theorem scanPowerLines_no_match (lines : List String)
    (hl : ∀ l ∈ lines, pyIn "Powered " l = false ∧ pyIn "Suspended" l = false) :
    scanPowerLines lines = none := by
  induction lines with
  | nil => rfl
  | cons l ls ih =>
    have hh := hl l (by simp)
    rw [scanPowerLines, if_neg (by simp [hh.1]), if_neg (by simp [hh.2])]
    exact ih fun x hx => hl x (by simp [hx])

/-- The shared diagnosis raises `IndexError` when stderr is empty. -/
theorem power_fail_stderr_nil (h : Host) (id : Int) (r : ExecResult)
    (t : List String) (fc pc : Int) (m : String) (hr : r.stderr = []) :
    power_fail h id r t fc pc m = (.error .indexError, t) := by
  unfold power_fail
  rw [hr]

/-- The shared diagnosis in the fault branch: first stderr line contains
`vim.fault`, the regex extracts `fault`, the re-query returns `st`; the
raised error carries `faultCode` and the formatted reason. -/
theorem power_fail_fault (h : Host) (id : Int) (r : ExecResult) (t : List String)
    (fc pc : Int) (m : String) (line : String) (rest : List String) (fault st : String)
    (hr : r.stderr = line :: rest) (hin : pyIn "vim.fault" line = true)
    (hex : extractVimFault line = some fault)
    (hgs : power_getstate_body h id = (.ok (some st), [power_getstate_cmd id])) :
    power_fail h id r t fc pc m
      = (.error (.esxi fc m (some (faultReason fault (pyCapitalize st)))),
         t ++ [power_getstate_cmd id]) := by
  unfold power_fail
  rw [hr]
  simp [hin, hex, hgs]

/-- A checked power method is a no-op (beyond the state query) when the
state already equals the target. -/
theorem power_checked_noop (h : Host) (id : Int) (target cmd : String)
    (fc pc : Int) (m : String)
    (hgs : power_getstate_body h id = (.ok (some target), [power_getstate_cmd id])) :
    power_checked h id target cmd fc pc m = (.ok (), [power_getstate_cmd id]) := by
  unfold power_checked
  rw [hgs]
  simp

/-- A checked power method whose command exits nonzero runs the shared
diagnosis. -/
theorem power_checked_fail (h : Host) (id : Int) (target cmd : String)
    (fc pc : Int) (m : String) (st : Option String)
    (hgs : power_getstate_body h id = (.ok st, [power_getstate_cmd id]))
    (hne : st ≠ some target)
    (hexit : (h.exec cmd).exitStatus ≠ 0) :
    power_checked h id target cmd fc pc m
      = power_fail h id (h.exec cmd) [power_getstate_cmd id, cmd] fc pc m := by
  unfold power_checked
  rw [hgs]
  dsimp only
  rw [if_neg (by simp [hne]), if_neg (by simp [hexit])]
  rfl

/-- An unchecked power method whose command exits nonzero runs the shared
diagnosis. -/
theorem power_unchecked_fail (h : Host) (id : Int) (cmd : String)
    (code : Int) (m : String) (hexit : (h.exec cmd).exitStatus ≠ 0) :
    power_unchecked h id cmd code m
      = power_fail h id (h.exec cmd) [cmd] code code m := by
  unfold power_unchecked
  simp [hexit]

/-- The shared diagnosis only extends the given trace. -/
theorem power_fail_trace_pfx (h : Host) (id : Int) (r : ExecResult)
    (t : List String) (fc pc : Int) (m : String) :
    ∃ ext, (power_fail h id r t fc pc m).2 = t ++ ext := by
  unfold power_fail
  cases r.stderr with
  | nil => exact ⟨[], by simp⟩
  | cons l rest =>
    by_cases hin : pyIn "vim.fault" l = true
    · cases hex : extractVimFault l with
      | none => exact ⟨[], by simp [hin, hex]⟩
      | some f =>
        rcases hgs : power_getstate_body h id with ⟨fst, snd⟩
        cases fst with
        | error e => exact ⟨snd, by simp [hin, hex, hgs]⟩
        | ok o =>
          cases o with
          | none => exact ⟨snd, by simp [hin, hex, hgs]⟩
          | some st => exact ⟨snd, by simp [hin, hex, hgs]⟩
    · exact ⟨[], by simp [hin]⟩

/-- An unchecked power method always issues its power command. -/
theorem power_unchecked_issues (h : Host) (id : Int) (cmd : String)
    (code : Int) (m : String) : cmd ∈ (power_unchecked h id cmd code m).2 := by
  unfold power_unchecked
  by_cases hex : ((h.exec cmd).exitStatus == 0) = true
  · simp [hex]
  · rw [if_neg hex]
    obtain ⟨ext, hext⟩ := power_fail_trace_pfx h id (h.exec cmd) [cmd] code code m
    rw [hext]
    simp

/-! ## Concrete hosts used by witnesses and counterexamples -/

/-- A host whose `connected()` check fails. -/
def hDown : Host := ⟨false, fun _ => ⟨0, [], []⟩⟩

/-- A connected host whose every command succeeds with empty output. -/
def hUp : Host := ⟨true, fun _ => ⟨0, [], []⟩⟩

/-- A connected host whose every command fails with empty output. -/
def hExitFail : Host := ⟨true, fun _ => ⟨1, [], []⟩⟩

/-- A connected host whose every command succeeds printing `lines`. -/
def hLines (lines : List String) : Host := ⟨true, fun _ => ⟨0, lines, []⟩⟩

/-- A connected host with one VM (`"Powered off"`) whose `power.on` command
fails with a `vim.fault.InvalidState` stderr line. -/
def hFaultOn : Host :=
  ⟨true, fun c =>
    if c == power_on_cmd 7 then ⟨1, [], ["vim.fault.InvalidState: boom"]⟩
    else ⟨0, ["Powered off"], []⟩⟩

/-- A connected host with one VM (`"Powered off"`) whose `power.hibernate`
command fails with a `vim.fault.InvalidState` stderr line. -/
def hFaultHib : Host :=
  ⟨true, fun c =>
    if c == power_hibernate_cmd 3 then ⟨1, [], ["vim.fault.InvalidState: nope"]⟩
    else ⟨0, ["Powered off"], []⟩⟩

/-- A connected host with one VM (`"Powered off"`) whose `power.hibernate`
command fails with a stderr line carrying no fault marker. -/
def hPlainHib : Host :=
  ⟨true, fun c =>
    if c == power_hibernate_cmd 3 then ⟨1, [], ["other error"]⟩
    else ⟨0, ["Powered off"], []⟩⟩

/-- A connected host with one VM (`"Powered off"`) whose `power.suspend`
command fails with empty stderr. -/
def hEmptyErr : Host :=
  ⟨true, fun c =>
    if c == power_getstate_cmd 5 then ⟨0, ["Powered off"], []⟩
    else ⟨1, [], []⟩⟩

/-- A connected host whose VM listing prints the header row and the `WebVM`
row from the specification's test vector. -/
def hWeb : Host :=
  ⟨true, fun c =>
    if c == getAllVmsCmd then
      ⟨0, ["vmid:name:datastore:file:guest_os:version\n",
           "10:WebVM:[datastore1]:WebVM/WebVM.vmx:otherGuest:vmx-11\n"], []⟩
    else ⟨0, [], []⟩⟩

/-- The VM handle that the `hWeb` listing row yields. -/
def webVm : Vm := ⟨10, "WebVM", "[datastore1]", "WebVM/WebVM.vmx", "otherGuest", "vmx-11\n"⟩

/-! ## Claims -/

/-- C1.  The claim says every operation that requires the session raises
`SessionNotConnected` (code -1000) when `connected()` is false.  The host
facade methods do: on a disconnected host each returns the -1000 error and
issues no command.  But every `ESXiVm` power operation is wrapped by the
`ssh_check` decorator, whose wrapper reads `args[0].host` with `args` closed
over from the decorator call, so `args[0]` is the wrapped function object
and the lookup raises `AttributeError` — connected or not — instead of
`SessionNotConnected`.  This theorem exhibits both behaviours. -/
theorem c1_session_guard_behaviour :
    get_maintenance_mode hDown = (.error sshNotConnectedErr, []) ∧
    enter_maintenance_mode hDown = (.error sshNotConnectedErr, []) ∧
    exit_maintenance_mode hDown = (.error sshNotConnectedErr, []) ∧
    shutdown hDown "poweroff" = (.error sshNotConnectedErr, []) ∧
    get_all_vms hDown = (.error sshNotConnectedErr, []) ∧
    get_running_vms hDown = (.error sshNotConnectedErr, []) ∧
    find_vm_by_name hDown "WebVM" = (.error sshNotConnectedErr, []) ∧
    find_vm_by_id hDown 10 = (.error sshNotConnectedErr, []) ∧
    sshNotConnectedErr = .esxi (-1000) "SSH not connected to host." none ∧
    power_getstate hDown 1 = (.error (.attributeError "host"), []) ∧
    power_hibernate hDown 1 = (.error (.attributeError "host"), []) ∧
    power_on hDown 1 = (.error (.attributeError "host"), []) ∧
    power_off hDown 1 = (.error (.attributeError "host"), []) ∧
    power_reboot hDown 1 = (.error (.attributeError "host"), []) ∧
    power_reset hDown 1 = (.error (.attributeError "host"), []) ∧
    power_shutdown hDown 1 = (.error (.attributeError "host"), []) ∧
    power_suspend hDown 1 = (.error (.attributeError "host"), []) ∧
    power_suspendresume hDown 1 = (.error (.attributeError "host"), []) ∧
    power_getstate hUp 1 = (.error (.attributeError "host"), []) ∧
    Err.attributeError "host" ≠ sshNotConnectedErr := by
  refine ⟨?_, ?_, ?_, ?_, ?_, ?_, ?_, ?_, ?_, ?_, ?_, ?_, ?_, ?_, ?_, ?_, ?_, ?_, ?_, ?_⟩
    <;> decide

/-- C2.  `power_getstate`, given a zero exit status, parses stdout as
claimed: `["Powered on"]` gives `on`, `["Powered off"]` gives `off`,
`["VM state: Suspended"]` gives `suspended`, and `[]` or any stdout with no
matching token gives the unknown marker (Python `None`, embedded as
`none`).  The scan is line by line and the first match wins: a head line
containing `"Powered "` yields its second space-delimited token stripped; a
head line containing `"Suspended"` (and not `"Powered "`) yields
`suspended`. -/
theorem c2_getstate_parsing :
    (∀ (h : Host) (id : Int), (h.exec (power_getstate_cmd id)).exitStatus = 0 →
      (h.exec (power_getstate_cmd id)).stdout = ["Powered on"] →
      (power_getstate_body h id).1 = .ok (some "on")) ∧
    (∀ (h : Host) (id : Int), (h.exec (power_getstate_cmd id)).exitStatus = 0 →
      (h.exec (power_getstate_cmd id)).stdout = ["Powered off"] →
      (power_getstate_body h id).1 = .ok (some "off")) ∧
    (∀ (h : Host) (id : Int), (h.exec (power_getstate_cmd id)).exitStatus = 0 →
      (h.exec (power_getstate_cmd id)).stdout = ["VM state: Suspended"] →
      (power_getstate_body h id).1 = .ok (some "suspended")) ∧
    (∀ (h : Host) (id : Int), (h.exec (power_getstate_cmd id)).exitStatus = 0 →
      (h.exec (power_getstate_cmd id)).stdout = [] →
      (power_getstate_body h id).1 = .ok none) ∧
    (∀ (h : Host) (id : Int), (h.exec (power_getstate_cmd id)).exitStatus = 0 →
      (∀ l ∈ (h.exec (power_getstate_cmd id)).stdout,
        pyIn "Powered " l = false ∧ pyIn "Suspended" l = false) →
      (power_getstate_body h id).1 = .ok none) ∧
    (∀ (h : Host) (id : Int) (line : String) (rest : List String),
      (h.exec (power_getstate_cmd id)).exitStatus = 0 →
      (h.exec (power_getstate_cmd id)).stdout = line :: rest →
      pyIn "Powered " line = true →
      (power_getstate_body h id).1 = .ok (some (pyStrip (idxD (pySplit line ' ') 1)))) ∧
    (∀ (h : Host) (id : Int) (line : String) (rest : List String),
      (h.exec (power_getstate_cmd id)).exitStatus = 0 →
      (h.exec (power_getstate_cmd id)).stdout = line :: rest →
      pyIn "Powered " line = false → pyIn "Suspended" line = true →
      (power_getstate_body h id).1 = .ok (some "suspended")) := by
  refine ⟨?_, ?_, ?_, ?_, ?_, ?_, ?_⟩
  · intro h id he hs
    rw [power_getstate_body_ok h id he]
    dsimp only
    rw [hs]
    decide
  · intro h id he hs
    rw [power_getstate_body_ok h id he]
    dsimp only
    rw [hs]
    decide
  · intro h id he hs
    rw [power_getstate_body_ok h id he]
    dsimp only
    rw [hs]
    decide
  · intro h id he hs
    rw [power_getstate_body_ok h id he]
    dsimp only
    rw [hs]
    decide
  · intro h id he hl
    rw [power_getstate_body_ok h id he]
    dsimp only
    rw [scanPowerLines_no_match _ hl]
  · intro h id line rest he hs hp
    rw [power_getstate_body_ok h id he]
    dsimp only
    rw [hs]
    simp [scanPowerLines, hp]
  · intro h id line rest he hs hp hsus
    rw [power_getstate_body_ok h id he]
    dsimp only
    rw [hs]
    simp [scanPowerLines, hp, hsus]

/-- C2 witness: the first parsing case instantiated on a concrete host
whose state query prints `Powered on`. -/
theorem c2_getstate_parsing_witness :
    ((hLines ["Powered on"]).exec (power_getstate_cmd 1)).exitStatus = 0 ∧
    ((hLines ["Powered on"]).exec (power_getstate_cmd 1)).stdout = ["Powered on"] ∧
    (power_getstate_body (hLines ["Powered on"]) 1).1 = .ok (some "on") :=
  ⟨rfl, rfl, c2_getstate_parsing.1 (hLines ["Powered on"]) 1 rfl rfl⟩

/-- C3 counterexample.  On stdout `["Maintenance Mode: Enabled\n"]` the
function returns `line.split(" ")[0].strip()`, which is `"Maintenance"`,
not `"Enabled"` as the claim states. -/
theorem c3_counterexample :
    get_maintenance_mode (hLines ["Maintenance Mode: Enabled\n"])
      = (.ok (some "Maintenance"), [maintenanceModeGetCmd]) ∧
    ("Maintenance" : String) ≠ "Enabled" := by
  decide

/-- C3 amended.  Given a zero exit status, `get_maintenance_mode` returns
the leading space-delimited token, trimmed, of the first stdout line
containing `"Enabled"` or `"Disabled"`: on `["Maintenance Mode: Enabled\n"]`
that token is `"Maintenance"` (not `"Enabled"`); on the realistic output
`["Enabled\n"]` it is `"Enabled"`. -/
theorem c3_amended_leading_token (h : Host) (hc : h.connected = true) :
    ((h.exec maintenanceModeGetCmd).exitStatus = 0 →
      (h.exec maintenanceModeGetCmd).stdout = ["Maintenance Mode: Enabled\n"] →
      get_maintenance_mode h = (.ok (some "Maintenance"), [maintenanceModeGetCmd])) ∧
    (∀ (line : String) (rest : List String),
      (h.exec maintenanceModeGetCmd).exitStatus = 0 →
      (h.exec maintenanceModeGetCmd).stdout = line :: rest →
      (pyIn "Enabled" line = true ∨ pyIn "Disabled" line = true) →
      (get_maintenance_mode h).1
        = .ok (some (pyStrip (idxD (pySplit line ' ') 0)))) ∧
    ((h.exec maintenanceModeGetCmd).exitStatus = 0 →
      (h.exec maintenanceModeGetCmd).stdout = ["Enabled\n"] →
      get_maintenance_mode h = (.ok (some "Enabled"), [maintenanceModeGetCmd])) := by
  refine ⟨?_, ?_, ?_⟩
  · intro he hs
    unfold get_maintenance_mode
    rw [if_pos hc, if_pos (by simp [he]), hs]
    decide
  · intro line rest he hs hor
    unfold get_maintenance_mode
    rw [if_pos hc, if_pos (by simp [he]), hs]
    dsimp only
    rcases hor with hm | hm <;> simp [scanMaintLines, hm]
  · intro he hs
    unfold get_maintenance_mode
    rw [if_pos hc, if_pos (by simp [he]), hs]
    decide

/-- C3 amended witness: the first case instantiated on a concrete host
printing the specification's test line. -/
theorem c3_amended_leading_token_witness :
    (hLines ["Maintenance Mode: Enabled\n"]).connected = true ∧
    ((hLines ["Maintenance Mode: Enabled\n"]).exec maintenanceModeGetCmd).exitStatus = 0 ∧
    get_maintenance_mode (hLines ["Maintenance Mode: Enabled\n"])
      = (.ok (some "Maintenance"), [maintenanceModeGetCmd]) :=
  ⟨rfl, rfl, (c3_amended_leading_token (hLines ["Maintenance Mode: Enabled\n"]) rfl).1 rfl rfl⟩

/-- C4 counterexample.  `power_reboot` (and `power_reset`) have no
current-state short-circuit: on a host whose VM reports `"on"` — the reboot
target state — the reboot body still issues the reboot power command, so
the claim's "no remote power command is issued" fails for them. -/
theorem c4_counterexample :
    (power_getstate_body (hLines ["Powered on"]) 10).1 = .ok (some "on") ∧
    power_reboot_body (hLines ["Powered on"]) 10 = (.ok (), [power_reboot_cmd 10]) ∧
    power_reset_body (hLines ["Powered on"]) 10 = (.ok (), [power_reset_cmd 10]) := by
  refine ⟨?_, ?_, ?_⟩ <;> decide

/-- C4 amended.  `power_hibernate`, `power_on`, `power_off`,
`power_shutdown` and `power_suspend` are no-ops when the VM already reports
their target state (`suspended`, `on`, `off`, `off`, `suspended`): only the
state query is issued and no error is raised.  `power_reboot` and
`power_reset` issue their power command unconditionally. -/
theorem c4_amended_noop (h : Host) (id : Int) :
    ((power_getstate_body h id).1 = .ok (some "suspended") →
      power_hibernate_body h id = (.ok (), [power_getstate_cmd id]) ∧
      power_suspend_body h id = (.ok (), [power_getstate_cmd id])) ∧
    ((power_getstate_body h id).1 = .ok (some "on") →
      power_on_body h id = (.ok (), [power_getstate_cmd id])) ∧
    ((power_getstate_body h id).1 = .ok (some "off") →
      power_off_body h id = (.ok (), [power_getstate_cmd id]) ∧
      power_shutdown_body h id = (.ok (), [power_getstate_cmd id])) ∧
    power_reboot_cmd id ∈ (power_reboot_body h id).2 ∧
    power_reset_cmd id ∈ (power_reset_body h id).2 := by
  refine ⟨?_, ?_, ?_, ?_, ?_⟩
  · intro hst
    have hp := power_getstate_body_pair h id _ hst
    exact ⟨power_checked_noop _ _ _ _ _ _ _ hp, power_checked_noop _ _ _ _ _ _ _ hp⟩
  · intro hst
    exact power_checked_noop _ _ _ _ _ _ _ (power_getstate_body_pair h id _ hst)
  · intro hst
    have hp := power_getstate_body_pair h id _ hst
    exact ⟨power_checked_noop _ _ _ _ _ _ _ hp, power_checked_noop _ _ _ _ _ _ _ hp⟩
  · exact power_unchecked_issues h id _ _ _
  · exact power_unchecked_issues h id _ _ _

/-- C4 amended witness: the no-op cases instantiated on concrete hosts
reporting `suspended`, `on` and `off`. -/
theorem c4_amended_noop_witness :
    (power_getstate_body (hLines ["VM state: Suspended"]) 2).1 = .ok (some "suspended") ∧
    power_hibernate_body (hLines ["VM state: Suspended"]) 2 = (.ok (), [power_getstate_cmd 2]) ∧
    power_suspend_body (hLines ["VM state: Suspended"]) 2 = (.ok (), [power_getstate_cmd 2]) ∧
    (power_getstate_body (hLines ["Powered on"]) 2).1 = .ok (some "on") ∧
    power_on_body (hLines ["Powered on"]) 2 = (.ok (), [power_getstate_cmd 2]) ∧
    (power_getstate_body (hLines ["Powered off"]) 2).1 = .ok (some "off") ∧
    power_off_body (hLines ["Powered off"]) 2 = (.ok (), [power_getstate_cmd 2]) ∧
    power_shutdown_body (hLines ["Powered off"]) 2 = (.ok (), [power_getstate_cmd 2]) := by
  have h1 := (c4_amended_noop (hLines ["VM state: Suspended"]) 2).1 (by decide)
  have h2 := (c4_amended_noop (hLines ["Powered on"]) 2).2.1 (by decide)
  have h3 := (c4_amended_noop (hLines ["Powered off"]) 2).2.2.1 (by decide)
  exact ⟨by decide, h1.1, h1.2, by decide, h2, by decide, h3.1, h3.2⟩

/-- C5.  On a fault-marked stderr the hibernate failure is raised with the
literal code `1000` — not the documented `VM_Hibernate_Failed` code `-1050`,
which only the no-fault branch carries — so callers cannot branch on a
single hibernate failure code as the claim states. -/
theorem c5_hibernate_code_mismatch :
    power_hibernate_body hFaultHib 3
      = (.error (.esxi 1000 "Unable to hibernate the specified vm."
          (some "(InvalidState) The attempted operation cannot be performed in the current state. (Off)")),
         [power_getstate_cmd 3, power_hibernate_cmd 3, power_getstate_cmd 3]) ∧
    power_hibernate_body hPlainHib 3
      = (.error (.esxi (-1050) "Unable to hibernate the specified vm." none),
         [power_getstate_cmd 3, power_hibernate_cmd 3]) ∧
    (1000 : Int) ≠ -1050 := by
  refine ⟨?_, ?_, ?_⟩ <;> decide

/-- The reason format with the extracted fault `InvalidState` folded into
one literal. -/
theorem faultReason_invalidState (x : String) :
    faultReason "InvalidState" x
      = "(InvalidState) The attempted operation cannot be performed in the current state. ("
        ++ x ++ ")" := by
  unfold faultReason
  rw [show ("(" ++ "InvalidState"
      ++ ") The attempted operation cannot be performed in the current state. (")
      = "(InvalidState) The attempted operation cannot be performed in the current state. ("
    from by decide]

/-- C6.  When `power_on` fails with a nonzero exit and the first stderr
line is `vim.fault.InvalidState: <anything>`, the raised error's reason is
exactly `(InvalidState) The attempted operation cannot be performed in the
current state. (<CurrentState>)` with the re-queried state capitalized. -/
theorem c6_fault_reason_format (h : Host) (id : Int) (st s : String) (rest : List String)
    (hgs : power_getstate_body h id = (.ok (some st), [power_getstate_cmd id]))
    (hne : st ≠ "on")
    (hexit : (h.exec (power_on_cmd id)).exitStatus ≠ 0)
    (herr : (h.exec (power_on_cmd id)).stderr = ("vim.fault.InvalidState: " ++ s) :: rest) :
    (power_on_body h id).1
      = .error (.esxi (-1060) "Unable to power on the specified vm."
          (some ("(InvalidState) The attempted operation cannot be performed in the current state. ("
            ++ pyCapitalize st ++ ")"))) := by
  have hcf := power_checked_fail h id "on" (power_on_cmd id) (-1060) (-1060)
    "Unable to power on the specified vm." (some st) hgs
    (fun hcon => hne (Option.some.inj hcon)) hexit
  have hpf := power_fail_fault h id (h.exec (power_on_cmd id))
    [power_getstate_cmd id, power_on_cmd id] (-1060) (-1060)
    "Unable to power on the specified vm." ("vim.fault.InvalidState: " ++ s) rest
    "InvalidState" st herr (pyIn_vimFault s) (extractVimFault_invalidState s) hgs
  unfold power_on_body
  rw [hcf, hpf]
  dsimp only
  rw [faultReason_invalidState]

/-- C6 witness: instantiated on a concrete host whose VM reports `off` and
whose `power.on` command fails with stderr `vim.fault.InvalidState: boom`. -/
theorem c6_fault_reason_format_witness :
    power_getstate_body hFaultOn 7 = (.ok (some "off"), [power_getstate_cmd 7]) ∧
    ("off" : String) ≠ "on" ∧
    (hFaultOn.exec (power_on_cmd 7)).exitStatus ≠ 0 ∧
    (hFaultOn.exec (power_on_cmd 7)).stderr = ("vim.fault.InvalidState: " ++ "boom") :: [] ∧
    (power_on_body hFaultOn 7).1
      = .error (.esxi (-1060) "Unable to power on the specified vm."
          (some ("(InvalidState) The attempted operation cannot be performed in the current state. ("
            ++ pyCapitalize "off" ++ ")"))) := by
  refine ⟨by decide, by decide, by decide, by decide, ?_⟩
  exact c6_fault_reason_format hFaultOn 7 "off" "boom" []
    (by decide) (by decide) (by decide) (by decide)

/-- C7.  `ESXiHost.shutdown` validates its argument case-insensitively
against `poweroff` and `reboot` (given a connected session): any other
value raises `Host_Shutdown_InvalidCommand` with no remote command issued;
a valid value whose command exits nonzero raises `Host_Shutdown_Failed`. -/
theorem c7_shutdown_validation (h : Host) (c : String) (hc : h.connected = true) :
    (pyLower c ≠ "poweroff" → pyLower c ≠ "reboot" →
      shutdown h c = (.error shutdownInvalidCommandErr, [])) ∧
    ((pyLower c = "poweroff" ∨ pyLower c = "reboot") →
      (h.exec (shutdownCmd c)).exitStatus ≠ 0 →
      shutdown h c = (.error shutdownFailedErr, [shutdownCmd c])) := by
  constructor
  · intro h1 h2
    unfold shutdown
    rw [if_pos hc, if_pos (by simp [h1, h2])]
  · intro hv he
    unfold shutdown
    rw [if_pos hc, if_neg (by rcases hv with hv | hv <;> simp [hv]),
      if_neg (by simp [he])]

/-- C7 witness: `BADVALUE` raises the invalid-command error without a
remote command; a failing `REBOOT` (case-insensitively valid) raises the
shutdown-failed error. -/
theorem c7_shutdown_validation_witness :
    hUp.connected = true ∧
    pyLower "BADVALUE" ≠ "poweroff" ∧ pyLower "BADVALUE" ≠ "reboot" ∧
    shutdown hUp "BADVALUE" = (.error shutdownInvalidCommandErr, []) ∧
    hExitFail.connected = true ∧ pyLower "REBOOT" = "reboot" ∧
    (hExitFail.exec (shutdownCmd "REBOOT")).exitStatus ≠ 0 ∧
    shutdown hExitFail "REBOOT" = (.error shutdownFailedErr, [shutdownCmd "REBOOT"]) := by
  refine ⟨rfl, by decide, by decide, ?_, rfl, by decide, by decide, ?_⟩
  · exact (c7_shutdown_validation hUp "BADVALUE" rfl).1 (by decide) (by decide)
  · exact (c7_shutdown_validation hExitFail "REBOOT" rfl).2 (Or.inr (by decide)) (by decide)

/-- C8.  `get_all_vms` raises `Host_VMQuery_Failed` on a nonzero exit;
on the specification's test rows (header plus `WebVM` row) it yields
exactly one handle with id 10 and name `WebVM`; the row parser skips any
row whose first colon-field is case-insensitively `vmid` and turns every
other six-field row into one handle. -/
theorem c8_vm_listing (h : Host) (hc : h.connected = true) :
    ((h.exec getAllVmsCmd).exitStatus ≠ 0 →
      get_all_vms h = (.error vmQueryFailedErr, [getAllVmsCmd])) ∧
    get_all_vms hWeb = (.ok (some [webVm]), [getAllVmsCmd]) ∧
    webVm.id = 10 ∧ webVm.name = "WebVM" ∧
    (∀ (row : String) (rest : List String),
      pyLower (idxD (pySplit row ':') 0) = "vmid" →
      parseVmRows (row :: rest) = parseVmRows rest) ∧
    (∀ (row : String) (rest : List String) (f0 f1 f2 f3 f4 f5 : String) (i : Int),
      pySplit row ':' = [f0, f1, f2, f3, f4, f5] →
      pyLower f0 ≠ "vmid" → pyInt f0 = some i →
      parseVmRows (row :: rest)
        = Except.map (fun vms => (⟨i, f1, f2, f3, f4, f5⟩ : Vm) :: vms)
            (parseVmRows rest)) := by
  refine ⟨?_, by decide, by decide, by decide, ?_, ?_⟩
  · intro he
    unfold get_all_vms
    rw [if_pos hc, if_neg (by simp [he])]
  · intro row rest hvmid
    rw [parseVmRows]
    rw [if_pos (by simp [hvmid])]
  · intro row rest f0 f1 f2 f3 f4 f5 i hsplit hvmid hint
    rw [parseVmRows, hsplit]
    rw [if_neg (by simp [idxD, hvmid])]
    have hmk : mkVm [f0, f1, f2, f3, f4, f5] = .ok ⟨i, f1, f2, f3, f4, f5⟩ := by
      unfold mkVm
      dsimp [idxD]
      rw [hint]
    rw [hmk]
    cases hres : parseVmRows rest <;> simp [hres, Except.map] <;> rfl

/-- C8 witness: the nonzero-exit case on a concrete failing host and the
header-skip case on the specification's header row. -/
theorem c8_vm_listing_witness :
    hExitFail.connected = true ∧
    (hExitFail.exec getAllVmsCmd).exitStatus ≠ 0 ∧
    get_all_vms hExitFail = (.error vmQueryFailedErr, [getAllVmsCmd]) ∧
    pyLower (idxD (pySplit "vmid:name:datastore:file:guest_os:version\n" ':') 0)
      = "vmid" ∧
    parseVmRows ["vmid:name:datastore:file:guest_os:version\n"] = parseVmRows [] := by
  refine ⟨rfl, by decide, ?_, by decide, ?_⟩
  · exact (c8_vm_listing hExitFail rfl).1 (by decide)
  · exact (c8_vm_listing hExitFail rfl).2.2.2.2.1
      "vmid:name:datastore:file:guest_os:version\n" [] (by decide)

/-- C9.  When the listing command prints no rows, `get_all_vms` returns the
Python `None` empty-marker, and `find_vm_by_name` / `find_vm_by_id` then
iterate over `None` and raise `TypeError` — not the claimed not-found
marker.  On a non-empty listing both finders behave as claimed:
case-insensitive name match, exact id match, `None` when absent. -/
theorem c9_find_on_empty_listing :
    find_vm_by_name hUp "WebVM" = (.error .typeError, [getAllVmsCmd]) ∧
    find_vm_by_id hUp 10 = (.error .typeError, [getAllVmsCmd]) ∧
    get_all_vms hUp = (.ok none, [getAllVmsCmd]) ∧
    find_vm_by_name hWeb "webvm" = (.ok (some webVm), [getAllVmsCmd]) ∧
    find_vm_by_name hWeb "missing" = (.ok none, [getAllVmsCmd]) ∧
    find_vm_by_id hWeb 10 = (.ok (some webVm), [getAllVmsCmd]) ∧
    find_vm_by_id hWeb 99 = (.ok none, [getAllVmsCmd]) := by
  refine ⟨?_, ?_, ?_, ?_, ?_, ?_, ?_⟩ <;> decide

/-- C10.  For every VM power operation, a nonzero exit with an empty stderr
makes the error branch index `vim_status[0]` on an empty list, so the body
terminates with `IndexError` instead of the documented operation-specific
failure error.  The five checked operations need the initial state query to
succeed with a non-target state to reach that branch; reboot and reset
reach it unconditionally. -/
theorem c10_empty_stderr_index_error (h : Host) (id : Int) (st : Option String) :
    ((power_getstate_body h id).1 = .ok st → st ≠ some "suspended" →
      (h.exec (power_hibernate_cmd id)).exitStatus ≠ 0 →
      (h.exec (power_hibernate_cmd id)).stderr = [] →
      (power_hibernate_body h id).1 = .error .indexError) ∧
    ((power_getstate_body h id).1 = .ok st → st ≠ some "on" →
      (h.exec (power_on_cmd id)).exitStatus ≠ 0 →
      (h.exec (power_on_cmd id)).stderr = [] →
      (power_on_body h id).1 = .error .indexError) ∧
    ((power_getstate_body h id).1 = .ok st → st ≠ some "off" →
      (h.exec (power_off_cmd id)).exitStatus ≠ 0 →
      (h.exec (power_off_cmd id)).stderr = [] →
      (power_off_body h id).1 = .error .indexError) ∧
    ((power_getstate_body h id).1 = .ok st → st ≠ some "off" →
      (h.exec (power_shutdown_cmd id)).exitStatus ≠ 0 →
      (h.exec (power_shutdown_cmd id)).stderr = [] →
      (power_shutdown_body h id).1 = .error .indexError) ∧
    ((power_getstate_body h id).1 = .ok st → st ≠ some "suspended" →
      (h.exec (power_suspend_cmd id)).exitStatus ≠ 0 →
      (h.exec (power_suspend_cmd id)).stderr = [] →
      (power_suspend_body h id).1 = .error .indexError) ∧
    ((h.exec (power_reboot_cmd id)).exitStatus ≠ 0 →
      (h.exec (power_reboot_cmd id)).stderr = [] →
      (power_reboot_body h id).1 = .error .indexError) ∧
    ((h.exec (power_reset_cmd id)).exitStatus ≠ 0 →
      (h.exec (power_reset_cmd id)).stderr = [] →
      (power_reset_body h id).1 = .error .indexError) := by
  refine ⟨?_, ?_, ?_, ?_, ?_, ?_, ?_⟩
  · intro hst hne hexit hr
    have hp := power_getstate_body_pair h id _ hst
    unfold power_hibernate_body
    rw [power_checked_fail h id _ _ _ _ _ _ hp hne hexit,
      power_fail_stderr_nil _ _ _ _ _ _ _ hr]
  · intro hst hne hexit hr
    have hp := power_getstate_body_pair h id _ hst
    unfold power_on_body
    rw [power_checked_fail h id _ _ _ _ _ _ hp hne hexit,
      power_fail_stderr_nil _ _ _ _ _ _ _ hr]
  · intro hst hne hexit hr
    have hp := power_getstate_body_pair h id _ hst
    unfold power_off_body
    rw [power_checked_fail h id _ _ _ _ _ _ hp hne hexit,
      power_fail_stderr_nil _ _ _ _ _ _ _ hr]
  · intro hst hne hexit hr
    have hp := power_getstate_body_pair h id _ hst
    unfold power_shutdown_body
    rw [power_checked_fail h id _ _ _ _ _ _ hp hne hexit,
      power_fail_stderr_nil _ _ _ _ _ _ _ hr]
  · intro hst hne hexit hr
    have hp := power_getstate_body_pair h id _ hst
    unfold power_suspend_body
    rw [power_checked_fail h id _ _ _ _ _ _ hp hne hexit,
      power_fail_stderr_nil _ _ _ _ _ _ _ hr]
  · intro hexit hr
    unfold power_reboot_body
    rw [power_unchecked_fail h id _ _ _ hexit,
      power_fail_stderr_nil _ _ _ _ _ _ _ hr]
  · intro hexit hr
    unfold power_reset_body
    rw [power_unchecked_fail h id _ _ _ hexit,
      power_fail_stderr_nil _ _ _ _ _ _ _ hr]

/-- C10 witness: a concrete host whose VM reports `off` and whose commands
fail with empty stderr makes hibernate and reboot end in `IndexError`. -/
theorem c10_empty_stderr_index_error_witness :
    (power_getstate_body hEmptyErr 5).1 = .ok (some "off") ∧
    (some "off" : Option String) ≠ some "suspended" ∧
    (hEmptyErr.exec (power_hibernate_cmd 5)).exitStatus ≠ 0 ∧
    (hEmptyErr.exec (power_hibernate_cmd 5)).stderr = [] ∧
    (power_hibernate_body hEmptyErr 5).1 = .error .indexError ∧
    (power_reboot_body hEmptyErr 5).1 = .error .indexError := by
  refine ⟨by decide, by decide, by decide, by decide, ?_, ?_⟩
  · exact (c10_empty_stderr_index_error hEmptyErr 5 (some "off")).1
      (by decide) (by decide) (by decide) (by decide)
  · exact (c10_empty_stderr_index_error hEmptyErr 5 (some "off")).2.2.2.2.2.1
      (by decide) (by decide)

end ESXiControl
